import Mathlib

/-
  Verification development for the SQLvsNoSQL benchmarking harness
  (src/mongo_test.py, src/PostgreSQL.py, src/database_comparison.py).

  The Python code is shallowly embedded: pure computations become Lean
  functions, the mutable database/metrics state becomes explicit state
  passing, wall-clock durations become rational parameters, the
  process-wide random source becomes an explicit oracle argument, and
  Python exceptions become Option/Except values.  Durations and money
  amounts are rationals; Python integer arithmetic is Nat/Int.
-/

namespace SQLvsNoSQL

/-! ## Decimal rendering

Embedding of the Python format expressions str(i) and f-string zero
padding such as the "{i:06d}" used by the data generators. -/

/-- The ASCII character of a single decimal digit. -/
def digitChar (d : Nat) : Char := Char.ofNat (48 + d)

/-- Decimal rendering of a natural number, most significant digit first,
mirroring Python str(i). -/
def decRep (n : Nat) : List Char :=
  if h : n < 10 then [digitChar n]
  else decRep (n / 10) ++ [digitChar (n % 10)]
  decreasing_by exact Nat.div_lt_self (by omega) (by omega)

/-- Numeric value of a decimal character sequence (left inverse of
rendering, used only in proofs). -/
def decVal (l : List Char) : Nat :=
  l.foldl (fun a c => 10 * a + (c.toNat - 48)) 0

/-- Zero padding to width 6, mirroring the Python format "{i:06d}"
(numbers longer than 6 digits are left unpadded). -/
def pad6 (n : Nat) : List Char :=
  List.replicate (6 - (decRep n).length) '0' ++ decRep n

/-- Identifier generated by the Python f-string pattern
f"{prefix}_{i:06d}" (src/mongo_test.py line 254, src/PostgreSQL.py
line 518). -/
def mkId (pfx : String) (i : Nat) : String :=
  pfx ++ "_" ++ String.mk (pad6 i)

theorem toNat_digitChar (d : Nat) (h : d < 10) : (digitChar d).toNat = 48 + d := by
  interval_cases d <;> rfl

theorem decVal_append_digit (l : List Char) (c : Char) :
    decVal (l ++ [c]) = 10 * decVal l + (c.toNat - 48) := by
  unfold decVal
  rw [List.foldl_append]
  rfl

theorem decVal_decRep (n : Nat) : decVal (decRep n) = n := by
  induction n using Nat.strong_induction_on with
  | _ n ih =>
    rw [decRep]
    split
    · next h =>
      show 10 * 0 + ((digitChar n).toNat - 48) = n
      rw [toNat_digitChar n h]
      omega
    · next h =>
      rw [decVal_append_digit, ih (n / 10) (Nat.div_lt_self (by omega) (by omega)),
        toNat_digitChar (n % 10) (Nat.mod_lt n (by omega))]
      omega

theorem foldl_decVal_replicate_zero (k : Nat) :
    List.foldl (fun a c => 10 * a + (c.toNat - 48)) 0 (List.replicate k '0') = 0 := by
  induction k with
  | zero => rfl
  | succ k ih => rw [List.replicate_succ, List.foldl_cons]; exact ih

theorem decVal_pad6 (n : Nat) : decVal (pad6 n) = n := by
  unfold pad6 decVal
  rw [List.foldl_append, foldl_decVal_replicate_zero]
  exact decVal_decRep n

theorem pad6_injective : Function.Injective pad6 := by
  intro a b h
  have := congrArg decVal h
  rwa [decVal_pad6, decVal_pad6] at this

theorem mkId_injective (pfx : String) : Function.Injective (mkId pfx) := by
  intro a b h
  apply pad6_injective
  have hd : (mkId pfx a).data = (mkId pfx b).data := congrArg String.data h
  simp only [mkId, String.data_append] at hd
  exact List.append_cancel_left hd

/-! ## Data generator

Embedding of generate_test_data (src/mongo_test.py lines 246-266,
src/PostgreSQL.py lines 510-530).  The randomly sampled attribute
values (price, category, created_at offset, stock, rating, tags) come
from the process-wide random source; the embedding receives them
through an explicit oracle mapping the loop index to the drawn
values.  The identifier and name fields are the deterministic part. -/

/-- One draw of the random attribute values used for a generated
product. -/
structure ProductAttrs where
  price : ℚ
  category : String
  created_at : ℤ
  stock : ℕ
  rating : ℚ
  tags : List String

/-- A generated performance-test product record. -/
structure PerfProduct where
  id : String
  name : String
  price : ℚ
  category : String
  description : String
  created_at : ℤ
  stock : ℕ
  rating : ℚ
  tags : List String

/-- Embedding of generate_test_data: for i in range(1, count + 1) build a
record with id f"{prefix}_{i:06d}", deterministic name/description, and
randomly drawn attributes. -/
def generate_test_data (count : ℕ) (pfx : String) (draw : ℕ → ProductAttrs) :
    List PerfProduct :=
  (List.range' 1 count).map (fun i =>
    { id := mkId pfx i
      name := "Performance Test Product " ++ String.mk (decRep i)
      price := (draw i).price
      category := (draw i).category
      description := "Test product " ++ String.mk (decRep i) ++ " for performance evaluation"
      created_at := (draw i).created_at
      stock := (draw i).stock
      rating := (draw i).rating
      tags := (draw i).tags })

theorem map_id_generate_test_data (count : ℕ) (pfx : String) (draw : ℕ → ProductAttrs) :
    (generate_test_data count pfx draw).map PerfProduct.id =
      (List.range' 1 count).map (mkId pfx) := by
  unfold generate_test_data
  rw [List.map_map]
  rfl

/-- C2: calling the data generator with count N >= 1 and a non-empty
prefix returns exactly N records, the k-th record (k from 0) has
identifier f"{prefix}_{k+1:06d}", and the N identifiers are pairwise
distinct. -/
theorem generate_test_data_count_and_unique_ids (N : ℕ) (pfx : String)
    (draw : ℕ → ProductAttrs) (hN : 1 ≤ N) (hpfx : pfx ≠ "") :
    (generate_test_data N pfx draw).length = N ∧
    (∀ k : ℕ, k < N →
      ((generate_test_data N pfx draw).map PerfProduct.id)[k]? =
        some (mkId pfx (1 + k))) ∧
    ((generate_test_data N pfx draw).map PerfProduct.id).Nodup := by
  refine ⟨?_, ?_, ?_⟩
  · unfold generate_test_data
    rw [List.length_map, List.length_range']
  · intro k hk
    rw [map_id_generate_test_data, List.getElem?_map]
    simp [List.getElem?_range', hk]
  · rw [map_id_generate_test_data]
    exact List.Nodup.map (mkId_injective pfx) (List.nodup_range' 1 N)

theorem generate_test_data_count_and_unique_ids_witness :
    (1 ≤ 3 ∧ ("perf" : String) ≠ "") ∧
    ((generate_test_data 3 "perf" (fun _ => ⟨0, "electronics", 0, 0, 0, []⟩)).length = 3 ∧
    (∀ k : ℕ, k < 3 →
      ((generate_test_data 3 "perf" (fun _ => ⟨0, "electronics", 0, 0, 0, []⟩)).map
          PerfProduct.id)[k]? = some (mkId "perf" (1 + k))) ∧
    ((generate_test_data 3 "perf" (fun _ => ⟨0, "electronics", 0, 0, 0, []⟩)).map
        PerfProduct.id).Nodup) :=
  ⟨⟨by decide, by decide⟩,
    generate_test_data_count_and_unique_ids 3 "perf" _ (by decide) (by decide)⟩

/-! ## Derived rates

The CRUD create rates (src/mongo_test.py line 295, src/PostgreSQL.py
line 594) and the with-validation / with-constraints rates of the
cost-of-consistency probe (src/mongo_test.py line 1141,
src/PostgreSQL.py line 1599) are guarded by an explicit duration > 0
check.  The without-validation / without-constraints rates
(src/mongo_test.py line 1121, src/PostgreSQL.py line 1574) divide by
the measured duration unconditionally; Python raises ZeroDivisionError
when that duration is zero. -/

/-- Python division on rationals: raises ZeroDivisionError on a zero
divisor. -/
def pyDiv (a b : ℚ) : Except String ℚ :=
  if b = 0 then .error "ZeroDivisionError" else .ok (a / b)

/-- create_rate = size / create_time if create_time > 0 else 0. -/
def create_rate (size : ℕ) (create_time : ℚ) : ℚ :=
  if create_time > 0 then (size : ℚ) / create_time else 0

/-- with-validation (with-constraints) insert rate:
successes / elapsed if elapsed > 0 else 0. -/
def with_validation_rate (successes : ℕ) (elapsed : ℚ) : ℚ :=
  if elapsed > 0 then (successes : ℚ) / elapsed else 0

/-- without-validation (without-constraints) insert rate:
len(test_orders) / elapsed, with no guard on the divisor. -/
def without_validation_rate (count : ℕ) (elapsed : ℚ) : Except String ℚ :=
  pyDiv (count : ℚ) elapsed

/-- C3 counterexample: the without-validation insert rate of the
cost-of-consistency probe is not 0 at duration 0; it raises
ZeroDivisionError, so not every derived-rate metric is guarded. -/
theorem without_validation_rate_div_by_zero :
    without_validation_rate 100 0 = Except.error "ZeroDivisionError" ∧
    without_validation_rate 100 0 ≠ Except.ok 0 := by
  constructor
  · rfl
  · intro h
    simp [without_validation_rate, pyDiv] at h

/-- C3 amended: the CRUD create rates and the with-validation
(with-constraints) rates equal count/duration for duration > 0 and 0
for duration = 0; the without-validation (without-constraints) rates
equal count/duration for duration > 0 but raise ZeroDivisionError for
duration = 0 instead of yielding 0. -/
theorem rate_computations_spec (c : ℕ) (t : ℚ) :
    (t > 0 → create_rate c t = (c : ℚ) / t) ∧
    (t = 0 → create_rate c t = 0) ∧
    (t > 0 → with_validation_rate c t = (c : ℚ) / t) ∧
    (t = 0 → with_validation_rate c t = 0) ∧
    (t > 0 → without_validation_rate c t = Except.ok ((c : ℚ) / t)) ∧
    (t = 0 → without_validation_rate c t = Except.error "ZeroDivisionError") := by
  refine ⟨fun h => ?_, fun h => ?_, fun h => ?_, fun h => ?_, fun h => ?_, fun h => ?_⟩
  · rw [create_rate, if_pos h]
  · rw [create_rate, if_neg (by rw [h]; exact lt_irrefl 0)]
  · rw [with_validation_rate, if_pos h]
  · rw [with_validation_rate, if_neg (by rw [h]; exact lt_irrefl 0)]
  · rw [without_validation_rate, pyDiv, if_neg (ne_of_gt h)]
  · rw [without_validation_rate, pyDiv, if_pos h]

theorem rate_computations_spec_witness :
    ((1 : ℚ) > 0 ∧ create_rate 100 1 = (100 : ℚ) / 1) ∧
    ((0 : ℚ) = 0 ∧ with_validation_rate 100 0 = 0) ∧
    without_validation_rate 100 0 = Except.error "ZeroDivisionError" :=
  ⟨⟨by norm_num, (rate_computations_spec 100 1).1 (by norm_num)⟩,
   ⟨rfl, (rate_computations_spec 100 0).2.2.2.1 rfl⟩,
   (rate_computations_spec 100 0).2.2.2.2.2 rfl⟩

/-! ## Timed operation measurements

Embedding of the two timed-measurement patterns of the PostgreSQL
script.  The elapsed argument is the wall-clock time the wrapped call
actually took; a raising call is an Except.error outcome. -/

/-- Per-query record of the flexibility battery: row count, duration,
optional error text. -/
structure QueryRecord where
  count : ℕ
  time : ℚ
  error : Option String
deriving DecidableEq

/-- Timed query measurement of test_4_query_flexibility
(src/PostgreSQL.py lines 475-495): success records the measured
duration and count; the except branch records count 0 and time 0
together with the error text. -/
def timedQueryRecord (elapsed : ℚ) (outcome : Except String ℕ) : QueryRecord :=
  match outcome with
  | .ok c => ⟨c, elapsed, none⟩
  | .error e => ⟨0, 0, some e⟩

/-- Timed read measurement of test_crud_performance (src/PostgreSQL.py
lines 611-624): success appends the measured duration to read_times;
the except branch appends 0 and only prints the error. -/
def crudReadTime (elapsed : ℚ) (outcome : Except String ℕ) : ℚ :=
  match outcome with
  | .ok _ => elapsed
  | .error _ => 0

/-- C5 counterexample: a failed measurement whose wrapped operation
took 5 seconds is recorded with duration 0, not with the elapsed
duration. -/
theorem timedQueryRecord_discards_elapsed :
    (timedQueryRecord 5 (Except.error "connection lost")).time = 0 ∧
    (timedQueryRecord 5 (Except.error "connection lost")).time ≠ 5 := by
  exact ⟨rfl, by decide⟩

/-- C5 amended: every recorded duration is nonnegative, the wrapped
exception is swallowed into the record, and on failure the record
carries count 0 and duration 0 (the elapsed time is discarded); in the
query-flexibility battery the error text is recorded exactly when the
operation raised, while the CRUD read battery appends duration 0 and
records no error at all. -/
theorem timed_measurement_spec (elapsed : ℚ) (outcome : Except String ℕ)
    (h : 0 ≤ elapsed) :
    0 ≤ (timedQueryRecord elapsed outcome).time ∧
    ((timedQueryRecord elapsed outcome).error.isSome ↔ ∃ e, outcome = Except.error e) ∧
    (∀ e, outcome = Except.error e →
      timedQueryRecord elapsed outcome = ⟨0, 0, some e⟩ ∧ crudReadTime elapsed outcome = 0) ∧
    (∀ c, outcome = Except.ok c →
      timedQueryRecord elapsed outcome = ⟨c, elapsed, none⟩ ∧
        crudReadTime elapsed outcome = elapsed) := by
  cases outcome with
  | ok c =>
    refine ⟨h, by simp [timedQueryRecord], ?_, ?_⟩
    · intro e he
      exact absurd he (by simp)
    · intro c' hc
      obtain rfl : c = c' := by injection hc
      exact ⟨rfl, rfl⟩
  | error e =>
    refine ⟨le_refl 0, by simp [timedQueryRecord], ?_, ?_⟩
    · intro e' he
      obtain rfl : e = e' := by injection he
      exact ⟨rfl, rfl⟩
    · intro c hc
      exact absurd hc (by simp)

theorem timed_measurement_spec_witness :
    (0 : ℚ) ≤ 2 ∧
    (timedQueryRecord 2 (Except.error "boom") = ⟨0, 0, some "boom"⟩ ∧
      crudReadTime 2 (Except.error "boom") = 0) :=
  ⟨by norm_num,
    (timed_measurement_spec 2 (Except.error "boom") (by norm_num)).2.2.1 "boom" rfl⟩

/-! ## Query-flexibility read battery

Embedding of test_4_query_flexibility.  Each battery entry is a query
name together with its backend outcome: either a raise, or a result
count with the measured duration.  The PostgreSQL version
(src/PostgreSQL.py lines 475-499) catches a raising query, records it
with count 0 / time 0 / error text, and excludes it from both the
total time and the success count before dividing; the MongoDB version
(src/mongo_test.py lines 222-237) has no handler, so a raising query
aborts the battery and divides by the full battery length otherwise. -/

/-- True when the backend outcome is a success. -/
def exceptOk {ε α : Type} : Except ε α → Bool
  | .ok _ => true
  | .error _ => false

/-- Number of battery queries that succeeded. -/
def successCount (qs : List (String × Except String (ℕ × ℚ))) : ℕ :=
  (qs.filter (fun q => exceptOk q.2)).length

/-- Sum of the measured durations of the battery queries that
succeeded. -/
def successTimeSum (qs : List (String × Except String (ℕ × ℚ))) : ℚ :=
  (qs.map (fun q => match q.2 with | .ok (_, t) => t | .error _ => 0)).sum

/-- The per-query record the PostgreSQL battery stores for one
outcome. -/
def pgRecordOf (q : String × Except String (ℕ × ℚ)) : String × QueryRecord :=
  match q.2 with
  | .ok (c, t) => (q.1, ⟨c, t, none⟩)
  | .error e => (q.1, ⟨0, 0, some e⟩)

/-- One iteration of the PostgreSQL battery loop: accumulate the
duration on success, record the failure otherwise. -/
def pgQueryFold (acc : ℚ × List (String × QueryRecord))
    (q : String × Except String (ℕ × ℚ)) : ℚ × List (String × QueryRecord) :=
  match q.2 with
  | .ok (c, t) => (acc.1 + t, acc.2 ++ [(q.1, ⟨c, t, none⟩)])
  | .error e => (acc.1, acc.2 ++ [(q.1, ⟨0, 0, some e⟩)])

/-- Embedding of the PostgreSQL test_4_query_flexibility: run the
battery, then avg_query_time = total_query_time divided by the number
of recorded entries without an error key. -/
def pg_test_4_query_flexibility (qs : List (String × Except String (ℕ × ℚ))) :
    Except String (List (String × QueryRecord) × ℚ) :=
  let r := qs.foldl pgQueryFold (0, [])
  match pyDiv r.1 ((r.2.filter (fun e => e.2.error.isNone)).length : ℚ) with
  | .error e => .error e
  | .ok avg => .ok (r.2, avg)

/-- The MongoDB battery loop: collect (name, count, time) per query,
aborting on the first raise. -/
def mongoCollect : List (String × Except String (ℕ × ℚ)) →
    Except String (List (String × ℕ × ℚ))
  | [] => .ok []
  | q :: rest =>
    match q.2 with
    | .error e => .error e
    | .ok (c, t) =>
      match mongoCollect rest with
      | .error e => .error e
      | .ok rs => .ok ((q.1, c, t) :: rs)

/-- Embedding of the MongoDB test_4_query_flexibility:
avg_query_time = total_query_time / len(queries). -/
def mongo_test_4_query_flexibility (qs : List (String × Except String (ℕ × ℚ))) :
    Except String (List (String × ℕ × ℚ) × ℚ) :=
  match mongoCollect qs with
  | .error e => .error e
  | .ok rs =>
    match pyDiv ((rs.map (fun r => r.2.2)).sum) ((qs.length : ℕ) : ℚ) with
    | .error e => .error e
    | .ok avg => .ok (rs, avg)

theorem pgQueryFold_spec (qs : List (String × Except String (ℕ × ℚ)))
    (acc : ℚ × List (String × QueryRecord)) :
    qs.foldl pgQueryFold acc = (acc.1 + successTimeSum qs, acc.2 ++ qs.map pgRecordOf) := by
  induction qs generalizing acc with
  | nil => simp [successTimeSum]
  | cons q rest ih =>
    rw [List.foldl_cons, ih]
    cases hq : q.2 with
    | ok ct =>
      obtain ⟨c, t⟩ := ct
      simp [pgQueryFold, pgRecordOf, successTimeSum, hq]
      ring
    | error e =>
      simp [pgQueryFold, pgRecordOf, successTimeSum, hq]

theorem error_isNone_pgRecordOf (q : String × Except String (ℕ × ℚ)) :
    (pgRecordOf q).2.error.isNone = exceptOk q.2 := by
  cases hq : q.2 with
  | ok ct => obtain ⟨c, t⟩ := ct; simp [pgRecordOf, exceptOk, hq]
  | error e => simp [pgRecordOf, exceptOk, hq]

theorem length_filter_pgRecords (qs : List (String × Except String (ℕ × ℚ))) :
    ((qs.map pgRecordOf).filter (fun e => e.2.error.isNone)).length = successCount qs := by
  induction qs with
  | nil => rfl
  | cons q rest ih =>
    cases h : exceptOk q.2 with
    | true =>
      simp only [successCount] at ih ⊢
      simp [List.filter_cons, error_isNone_pgRecordOf, h, ih]
    | false =>
      simp only [successCount] at ih ⊢
      simp [List.filter_cons, error_isNone_pgRecordOf, h, ih]

/-- The rows the MongoDB battery collects when no query raises. -/
def mongoRows (qs : List (String × Except String (ℕ × ℚ))) : List (String × ℕ × ℚ) :=
  qs.map (fun q => (q.1, match q.2 with | .ok (c, t) => (c, t) | .error _ => (0, 0)))

theorem mongoCollect_ok_of_all_ok (qs : List (String × Except String (ℕ × ℚ)))
    (h : ∀ q ∈ qs, exceptOk q.2 = true) :
    mongoCollect qs = .ok (mongoRows qs) := by
  induction qs with
  | nil => rfl
  | cons q rest ih =>
    have hq : exceptOk q.2 = true := h q (List.mem_cons_self q rest)
    cases hq2 : q.2 with
    | error e => rw [hq2] at hq; exact absurd hq (by simp [exceptOk])
    | ok ct =>
      obtain ⟨c, t⟩ := ct
      rw [mongoCollect, hq2, ih (fun p hp => h p (List.mem_cons_of_mem q hp))]
      simp [mongoRows, hq2]

theorem mongoCollect_error_of_some_failure (qs : List (String × Except String (ℕ × ℚ)))
    (h : ∃ q ∈ qs, exceptOk q.2 = false) :
    ∃ e, mongoCollect qs = .error e := by
  induction qs with
  | nil => obtain ⟨q, hq, _⟩ := h; exact absurd hq (List.not_mem_nil q)
  | cons q rest ih =>
    cases hq2 : q.2 with
    | error e => exact ⟨e, by rw [mongoCollect, hq2]⟩
    | ok ct =>
      obtain ⟨c, t⟩ := ct
      obtain ⟨p, hp, hpf⟩ := h
      rcases List.mem_cons.mp hp with rfl | hp2
      · rw [hq2] at hpf; exact absurd hpf (by simp [exceptOk])
      · obtain ⟨e, he⟩ := ih ⟨p, hp2, hpf⟩
        exact ⟨e, by rw [mongoCollect, hq2, he]⟩

theorem successCount_eq_length_of_all_ok (qs : List (String × Except String (ℕ × ℚ)))
    (h : ∀ q ∈ qs, exceptOk q.2 = true) : successCount qs = qs.length := by
  unfold successCount
  rw [List.filter_length_eq_length.mpr h]

theorem sum_mongoRows (qs : List (String × Except String (ℕ × ℚ)))
    (h : ∀ q ∈ qs, exceptOk q.2 = true) :
    ((mongoRows qs).map (fun r => r.2.2)).sum = successTimeSum qs := by
  induction qs with
  | nil => rfl
  | cons q rest ih =>
    have hq : exceptOk q.2 = true := h q (List.mem_cons_self q rest)
    cases hq2 : q.2 with
    | error e => rw [hq2] at hq; exact absurd hq (by simp [exceptOk])
    | ok ct =>
      obtain ⟨c, t⟩ := ct
      simp only [mongoRows, List.map_cons, List.sum_cons, successTimeSum, hq2]
      rw [show (mongoRows rest).map (fun r => r.2.2) =
        (rest.map (fun q => (q.1, match q.2 with
          | .ok (c, t) => (c, t) | .error _ => (0, 0)))).map (fun r => r.2.2) from rfl] at ih
      rw [ih (fun p hp => h p (List.mem_cons_of_mem q hp))]
      simp [successTimeSum]

theorem mongo_flex_of_all_ok (qs : List (String × Except String (ℕ × ℚ)))
    (hall : ∀ q ∈ qs, exceptOk q.2 = true) (hne : qs.length ≠ 0) :
    mongo_test_4_query_flexibility qs =
      .ok (mongoRows qs, successTimeSum qs / (qs.length : ℚ)) := by
  unfold mongo_test_4_query_flexibility
  rw [mongoCollect_ok_of_all_ok qs hall]
  show (match pyDiv ((mongoRows qs).map (fun r => r.2.2)).sum ((qs.length : ℕ) : ℚ) with
    | Except.error e => Except.error e
    | Except.ok avg => Except.ok (mongoRows qs, avg)) = _
  rw [sum_mongoRows qs hall, pyDiv, if_neg (by exact_mod_cast hne)]

/-- C4: the read-query battery computes avg_query_time as the sum of
the durations of the queries that succeeded divided by the number of
queries that succeeded; an errored query contributes to neither and is
recorded separately with its error text (PostgreSQL), and in the
MongoDB battery, whenever an average is produced at all, every query
succeeded, so the same identity holds. -/
theorem avg_query_time_spec (qs : List (String × Except String (ℕ × ℚ)))
    (h : 0 < successCount qs) :
    pg_test_4_query_flexibility qs =
      .ok (qs.map pgRecordOf, successTimeSum qs / (successCount qs : ℚ)) ∧
    (∀ res avg, mongo_test_4_query_flexibility qs = .ok (res, avg) →
      avg = successTimeSum qs / (successCount qs : ℚ)) := by
  constructor
  · unfold pg_test_4_query_flexibility
    rw [pgQueryFold_spec]
    simp only [zero_add, List.nil_append]
    rw [length_filter_pgRecords, pyDiv,
      if_neg (by exact_mod_cast Nat.pos_iff_ne_zero.mp h)]
  · intro res avg hres
    by_cases hall : ∀ q ∈ qs, exceptOk q.2 = true
    · have hlen : qs.length ≠ 0 := by
        have := successCount_eq_length_of_all_ok qs hall
        omega
      rw [mongo_flex_of_all_ok qs hall hlen] at hres
      have : avg = successTimeSum qs / (qs.length : ℚ) := by
        injection hres with h1
        exact (congrArg Prod.snd h1).symm
      rw [this, ← successCount_eq_length_of_all_ok qs hall]
    · push_neg at hall
      obtain ⟨p, hp, hpf⟩ := hall
      obtain ⟨e, he⟩ := mongoCollect_error_of_some_failure qs
        ⟨p, hp, by simpa using hpf⟩
      unfold mongo_test_4_query_flexibility at hres
      rw [he] at hres
      exact absurd hres (by simp)

theorem avg_query_time_spec_witness :
    0 < successCount [("simple filter", Except.ok (3, 2)), ("join query", Except.error "boom")] ∧
    pg_test_4_query_flexibility
        [("simple filter", Except.ok (3, 2)), ("join query", Except.error "boom")] =
      .ok ([("simple filter", ⟨3, 2, none⟩), ("join query", ⟨0, 0, some "boom"⟩)],
        (2 : ℚ) / 1) := by
  refine ⟨by decide, ?_⟩
  have h := (avg_query_time_spec
    [("simple filter", Except.ok (3, 2)), ("join query", Except.error "boom")] (by decide)).1
  rw [h]
  norm_num [pgRecordOf, successTimeSum, successCount, exceptOk]

/-! ## CRUD DELETE step

Embedding of the DELETE step of test_crud_performance
(src/mongo_test.py lines 349-377, src/PostgreSQL.py lines 660-693):
count the documents, delete those older than the cutoff, count again,
and derive deletion_percentage guarded by before > 0. -/

/-- Outcome record of the DELETE step. -/
structure DeleteResults where
  documents_before_delete : ℕ
  documents_deleted : ℕ
  documents_after_delete : ℕ
  deletion_percentage : ℚ

/-- DELETE step: docs_before = count, delete_many removes the records
with created_at below the cutoff, docs_after = count of the rest,
deletion_percentage = deleted/before*100 if before > 0 else 0. -/
def deleteStep (docs : List PerfProduct) (cutoff : ℤ) : DeleteResults :=
  let docs_before := docs.length
  let deleted := (docs.filter (fun d => decide (d.created_at < cutoff))).length
  let remaining := docs.filter (fun d => ! decide (d.created_at < cutoff))
  { documents_before_delete := docs_before
    documents_deleted := deleted
    documents_after_delete := remaining.length
    deletion_percentage :=
      if docs_before > 0 then (deleted : ℚ) / (docs_before : ℚ) * 100 else 0 }

theorem length_filter_not_eq_sub (l : List PerfProduct) (p : PerfProduct → Bool) :
    (l.filter (fun d => ! p d)).length = l.length - (l.filter p).length := by
  induction l with
  | nil => rfl
  | cons d rest ih =>
    by_cases h : p d = true
    · have hl := List.length_filter_le p rest
      simp [List.filter_cons, h, ih]
    · have h2 : p d = false := by revert h; cases p d <;> simp
      have hl := List.length_filter_le p rest
      simp [List.filter_cons, h2, ih]
      omega

/-- C6: in the DELETE step, documents_after_delete equals
documents_before_delete minus documents_deleted exactly, the deletion
percentage lies in the interval from 0 to 100 whenever there was at
least one document, and is exactly 0 when the collection was empty. -/
theorem deleteStep_spec (docs : List PerfProduct) (cutoff : ℤ) :
    (deleteStep docs cutoff).documents_after_delete =
      (deleteStep docs cutoff).documents_before_delete -
        (deleteStep docs cutoff).documents_deleted ∧
    ((deleteStep docs cutoff).documents_before_delete > 0 →
      0 ≤ (deleteStep docs cutoff).deletion_percentage ∧
        (deleteStep docs cutoff).deletion_percentage ≤ 100) ∧
    ((deleteStep docs cutoff).documents_before_delete = 0 →
      (deleteStep docs cutoff).deletion_percentage = 0) := by
  refine ⟨?_, ?_, ?_⟩
  · exact length_filter_not_eq_sub docs (fun d => decide (d.created_at < cutoff))
  · intro hpos
    have hpos' : 0 < docs.length := hpos
    have hle : ((docs.filter (fun d => decide (d.created_at < cutoff))).length : ℚ) ≤
        (docs.length : ℚ) := by
      exact_mod_cast List.length_filter_le _ docs
    have hlpos : (0 : ℚ) < (docs.length : ℚ) := by exact_mod_cast hpos'
    constructor
    · show 0 ≤ (deleteStep docs cutoff).deletion_percentage
      simp only [deleteStep]
      rw [if_pos hpos']
      positivity
    · show (deleteStep docs cutoff).deletion_percentage ≤ 100
      simp only [deleteStep]
      rw [if_pos hpos']
      have hdiv : ((docs.filter (fun d => decide (d.created_at < cutoff))).length : ℚ) /
          (docs.length : ℚ) ≤ 1 := (div_le_one hlpos).mpr hle
      calc ((docs.filter (fun d => decide (d.created_at < cutoff))).length : ℚ) /
            (docs.length : ℚ) * 100 ≤ 1 * 100 := by
              exact mul_le_mul_of_nonneg_right hdiv (by norm_num)
        _ = 100 := by norm_num
  · intro hzero
    have hz : docs.length = 0 := hzero
    simp only [deleteStep]
    rw [if_neg (by omega)]

theorem deleteStep_spec_witness :
    ((deleteStep [⟨"perf_000001", "p", 1, "c", "d", 0, 0, 1, []⟩,
        ⟨"perf_000002", "p", 1, "c", "d", 5, 0, 1, []⟩] 3).documents_before_delete > 0 ∧
      0 ≤ (deleteStep [⟨"perf_000001", "p", 1, "c", "d", 0, 0, 1, []⟩,
        ⟨"perf_000002", "p", 1, "c", "d", 5, 0, 1, []⟩] 3).deletion_percentage ∧
      (deleteStep [⟨"perf_000001", "p", 1, "c", "d", 0, 0, 1, []⟩,
        ⟨"perf_000002", "p", 1, "c", "d", 5, 0, 1, []⟩] 3).deletion_percentage ≤ 100) ∧
    (deleteStep [⟨"perf_000001", "p", 1, "c", "d", 0, 0, 1, []⟩,
        ⟨"perf_000002", "p", 1, "c", "d", 5, 0, 1, []⟩] 3).documents_after_delete =
      (deleteStep [⟨"perf_000001", "p", 1, "c", "d", 0, 0, 1, []⟩,
        ⟨"perf_000002", "p", 1, "c", "d", 5, 0, 1, []⟩] 3).documents_before_delete -
      (deleteStep [⟨"perf_000001", "p", 1, "c", "d", 0, 0, 1, []⟩,
        ⟨"perf_000002", "p", 1, "c", "d", 5, 0, 1, []⟩] 3).documents_deleted :=
  ⟨⟨by decide,
    (deleteStep_spec [⟨"perf_000001", "p", 1, "c", "d", 0, 0, 1, []⟩,
      ⟨"perf_000002", "p", 1, "c", "d", 5, 0, 1, []⟩] 3).2.1 (by decide)⟩,
   (deleteStep_spec [⟨"perf_000001", "p", 1, "c", "d", 0, 0, 1, []⟩,
      ⟨"perf_000002", "p", 1, "c", "d", 5, 0, 1, []⟩] 3).1⟩

/-! ## Validation probe

Embedding of test_data_validation (src/mongo_test.py lines 589-722,
src/PostgreSQL.py lines 955-1144).  Each probe attempt inserts a
record designated valid or invalid; the backend either accepts it or
rejects it with an error text.  Every attempt sits in its own
try/except, so no outcome raises out of the probe loop. -/

/-- What the probe designated the record to be. -/
inductive Designation where
  | valid
  | invalid
deriving DecidableEq

/-- One probe attempt: its display name, its designation, and the
backend outcome (accepted, or rejected with an error text). -/
structure ProbeAttempt where
  name : String
  designation : Designation
  outcome : Except String Unit

/-- Running tallies of the validation probe. -/
structure ValidationResults where
  valid_insertions : ℕ
  invalid_insertions_blocked : ℕ
  validation_errors : List String
deriving DecidableEq

/-- One probe attempt folded into the tallies: an accepted valid record
increments valid_insertions, a rejected invalid record increments
invalid_insertions_blocked, and either mismatch appends to
validation_errors. -/
def probeStep (s : ValidationResults) (p : ProbeAttempt) : ValidationResults :=
  match p.designation, p.outcome with
  | .valid, .ok _ => { s with valid_insertions := s.valid_insertions + 1 }
  | .valid, .error e =>
    { s with validation_errors := s.validation_errors ++ ["Valid data rejected: " ++ e] }
  | .invalid, .ok _ =>
    { s with validation_errors := s.validation_errors ++ ["Invalid data accepted: " ++ p.name] }
  | .invalid, .error _ =>
    { s with invalid_insertions_blocked := s.invalid_insertions_blocked + 1 }

/-- The whole probe: fold every attempt, starting from zero tallies. -/
def test_data_validation (ps : List ProbeAttempt) : ValidationResults :=
  ps.foldl probeStep ⟨0, 0, []⟩

/-- C7: per probe attempt, a rejected invalid record increments
invalid_insertions_blocked by exactly 1 (everything else unchanged),
an accepted valid record increments valid_insertions by exactly 1, a
mismatch only appends one entry to validation_errors, and the fold
continues through all remaining probes after any single outcome. -/
theorem validation_probe_spec (s : ValidationResults) (p : ProbeAttempt)
    (ps1 ps2 : List ProbeAttempt) :
    (∀ e, p.designation = .invalid → p.outcome = Except.error e →
      probeStep s p = { s with invalid_insertions_blocked := s.invalid_insertions_blocked + 1 }) ∧
    (p.designation = .valid → p.outcome = Except.ok () →
      probeStep s p = { s with valid_insertions := s.valid_insertions + 1 }) ∧
    (p.designation = .valid → ∀ e, p.outcome = Except.error e →
      probeStep s p = { s with validation_errors :=
        s.validation_errors ++ ["Valid data rejected: " ++ e] }) ∧
    (p.designation = .invalid → p.outcome = Except.ok () →
      probeStep s p = { s with validation_errors :=
        s.validation_errors ++ ["Invalid data accepted: " ++ p.name] }) ∧
    ((ps1 ++ ps2).foldl probeStep ⟨0, 0, []⟩ =
      ps2.foldl probeStep (ps1.foldl probeStep ⟨0, 0, []⟩)) := by
  refine ⟨?_, ?_, ?_, ?_, List.foldl_append probeStep _ ps1 ps2⟩
  · intro e hd ho
    unfold probeStep
    rw [hd, ho]
  · intro hd ho
    unfold probeStep
    rw [hd, ho]
  · intro hd e ho
    unfold probeStep
    rw [hd, ho]
  · intro hd ho
    unfold probeStep
    rw [hd, ho]

theorem validation_probe_spec_witness :
    probeStep ⟨1, 0, []⟩ ⟨"INVALID_ID customer", Designation.invalid,
        Except.error "Document failed validation"⟩ = ⟨1, 1, []⟩ ∧
    ([(⟨"valid customer", Designation.valid, Except.ok ()⟩ : ProbeAttempt)] ++
      [(⟨"INVALID_ID customer", Designation.invalid,
        Except.error "Document failed validation"⟩ : ProbeAttempt)]).foldl probeStep ⟨0, 0, []⟩ =
      [(⟨"INVALID_ID customer", Designation.invalid,
        Except.error "Document failed validation"⟩ : ProbeAttempt)].foldl probeStep
        ([(⟨"valid customer", Designation.valid, Except.ok ()⟩ : ProbeAttempt)].foldl
          probeStep ⟨0, 0, []⟩) := by
  have h := validation_probe_spec ⟨1, 0, []⟩
    ⟨"INVALID_ID customer", Designation.invalid, Except.error "Document failed validation"⟩
    [⟨"valid customer", Designation.valid, Except.ok ()⟩]
    [⟨"INVALID_ID customer", Designation.invalid, Except.error "Document failed validation"⟩]
  exact ⟨h.1 "Document failed validation" rfl rfl, h.2.2.2.2⟩

/-! ## Transaction probe

Embedding of test_multi_document_transactions and its nested
process_order_transaction (src/mongo_test.py lines 724-918,
src/PostgreSQL.py lines 1146-1358).  The backend state is the three
touched collections; a transaction either commits (the state advances)
or fails at some step, in which case the session/START TRANSACTION
rollback restores the pre-transaction state.  Backend schema
validation of the inserted order/payment documents is an oracle
argument. -/

/-- One order line item. -/
structure OrderItem where
  product_id : String
  quantity : ℤ
  unit_price : ℚ
deriving DecidableEq

/-- An order document/row. -/
structure OrderDoc where
  order_id : String
  customer_id : String
  items : List OrderItem
  total_amount : ℚ
  status : String
deriving DecidableEq

/-- A payment document/row. -/
structure PaymentDoc where
  payment_id : String
  order_id : String
  amount : ℚ
  method : String
  status : String
deriving DecidableEq

/-- An inventory document/row. -/
structure InventoryDoc where
  product_id : String
  stock_quantity : ℤ
  reserved_quantity : ℤ
deriving DecidableEq

/-- The collections/tables touched by the transaction probe. -/
structure EcommerceDB where
  orders : List OrderDoc
  payments : List PaymentDoc
  inventory : List InventoryDoc
deriving DecidableEq

/-- update_one / UPDATE ... WHERE of the first matching record. -/
def updateFirst (p : α → Bool) (f : α → α) : List α → List α
  | [] => []
  | a :: rest => if p a then f a :: rest else a :: updateFirst p f rest

/-- Step 1 of the transaction for one item: find the inventory record
(raise if absent), check available = stock - reserved against the
requested quantity (raise if insufficient), else reserve. -/
def reserveItem (inv : List InventoryDoc) (it : OrderItem) : Option (List InventoryDoc) :=
  match inv.find? (fun d => d.product_id == it.product_id) with
  | none => none
  | some d =>
    if d.stock_quantity - d.reserved_quantity < it.quantity then none
    else some (updateFirst (fun d => d.product_id == it.product_id)
      (fun d => { d with reserved_quantity := d.reserved_quantity + it.quantity }) inv)

/-- The inventory loop of step 1 over all order items. -/
def reserveItems (inv : List InventoryDoc) : List OrderItem → Option (List InventoryDoc)
  | [] => some inv
  | it :: rest =>
    match reserveItem inv it with
    | none => none
    | some inv2 => reserveItems inv2 rest

/-- Embedding of process_order_transaction: reserve inventory, insert
the order, insert the payment, mark the order confirmed and the
payment completed, all inside one transaction; any failing step makes
the whole transaction roll back to the pre-transaction state and the
call report failure. -/
def processOrderTransaction (okOrder : OrderDoc → Bool) (okPayment : PaymentDoc → Bool)
    (db : EcommerceDB) (od : OrderDoc) (pd : PaymentDoc) : EcommerceDB × Bool :=
  match reserveItems db.inventory od.items with
  | none => (db, false)
  | some inv2 =>
    if okOrder od then
      if okPayment pd then
        ({ orders := updateFirst (fun o => o.order_id == od.order_id)
             (fun o => { o with status := "confirmed" }) (db.orders ++ [od])
           payments := updateFirst (fun p => p.payment_id == pd.payment_id)
             (fun p => { p with status := "completed" }) (db.payments ++ [pd])
           inventory := inv2 }, true)
      else (db, false)
    else (db, false)

/-- Running tallies of the transaction probe. -/
structure TransactionResults where
  successful_transactions : ℕ
  failed_transactions : ℕ
  rollback_tests : ℕ
  transaction_times : List ℚ
deriving DecidableEq

/-- One probe run folded into state and tallies: success appends the
elapsed time and increments successful_transactions; failure
increments failed_transactions and rollback_tests together. -/
def txProbeStep (okOrder : OrderDoc → Bool) (okPayment : PaymentDoc → Bool)
    (st : EcommerceDB × TransactionResults) (run : OrderDoc × PaymentDoc × ℚ) :
    EcommerceDB × TransactionResults :=
  match processOrderTransaction okOrder okPayment st.1 run.1 run.2.1 with
  | (db2, true) => (db2, { st.2 with
      successful_transactions := st.2.successful_transactions + 1
      transaction_times := st.2.transaction_times ++ [run.2.2] })
  | (db2, false) => (db2, { st.2 with
      failed_transactions := st.2.failed_transactions + 1
      rollback_tests := st.2.rollback_tests + 1 })

/-- The deliberately oversized rollback order (order id ORD_ROLLBACK,
99999 units of PROD_000001). -/
def rollback_order : OrderDoc :=
  { order_id := "ORD_ROLLBACK", customer_id := "CUST_000001"
    items := [{ product_id := "PROD_000001", quantity := 99999, unit_price := 2599 / 100 }]
    total_amount := 259990001 / 100, status := "pending" }

/-- The matching rollback payment (payment id PAY_ROLLBACK). -/
def rollback_payment : PaymentDoc :=
  { payment_id := "PAY_ROLLBACK", order_id := "ORD_ROLLBACK"
    amount := 259990001 / 100, method := "credit_card", status := "pending" }

/-- count_documents / SELECT COUNT(*) by order id. -/
def countOrders (db : EcommerceDB) (oid : String) : ℕ :=
  (db.orders.filter (fun o => o.order_id == oid)).length

/-- count_documents / SELECT COUNT(*) by payment id. -/
def countPayments (db : EcommerceDB) (pid : String) : ℕ :=
  (db.payments.filter (fun p => p.payment_id == pid)).length

/-- Embedding of test_multi_document_transactions: three generated
valid runs, then the oversized ORD_ROLLBACK / PAY_ROLLBACK run. -/
def test_multi_document_transactions (okOrder : OrderDoc → Bool)
    (okPayment : PaymentDoc → Bool) (db0 : EcommerceDB)
    (validRuns : List (OrderDoc × PaymentDoc × ℚ)) (tRollback : ℚ) :
    EcommerceDB × TransactionResults :=
  let st1 := validRuns.foldl (txProbeStep okOrder okPayment) (db0, ⟨0, 0, 0, []⟩)
  txProbeStep okOrder okPayment st1 (rollback_order, rollback_payment, tRollback)

/-- All runs of a list commit in sequence from the given state. -/
def allRunsSucceed (okOrder : OrderDoc → Bool) (okPayment : PaymentDoc → Bool) :
    EcommerceDB → List (OrderDoc × PaymentDoc × ℚ) → Bool
  | _, [] => true
  | db, run :: rest =>
    match processOrderTransaction okOrder okPayment db run.1 run.2.1 with
    | (db2, true) => allRunsSucceed okOrder okPayment db2 rest
    | (_, false) => false

theorem txProbeStep_success (okO : OrderDoc → Bool) (okP : PaymentDoc → Bool)
    (db db2 : EcommerceDB) (r : TransactionResults) (run : OrderDoc × PaymentDoc × ℚ)
    (hp : processOrderTransaction okO okP db run.1 run.2.1 = (db2, true)) :
    txProbeStep okO okP (db, r) run = (db2, { r with
      successful_transactions := r.successful_transactions + 1
      transaction_times := r.transaction_times ++ [run.2.2] }) := by
  unfold txProbeStep
  rw [hp]

theorem txProbeStep_failure (okO : OrderDoc → Bool) (okP : PaymentDoc → Bool)
    (db db2 : EcommerceDB) (r : TransactionResults) (run : OrderDoc × PaymentDoc × ℚ)
    (hp : processOrderTransaction okO okP db run.1 run.2.1 = (db2, false)) :
    txProbeStep okO okP (db, r) run = (db2, { r with
      failed_transactions := r.failed_transactions + 1
      rollback_tests := r.rollback_tests + 1 }) := by
  unfold txProbeStep
  rw [hp]

theorem foldl_txProbeStep_all_succeed (okO : OrderDoc → Bool) (okP : PaymentDoc → Bool)
    (runs : List (OrderDoc × PaymentDoc × ℚ)) (db : EcommerceDB) (r : TransactionResults)
    (h : allRunsSucceed okO okP db runs = true) :
    (runs.foldl (txProbeStep okO okP) (db, r)).2.successful_transactions =
      r.successful_transactions + runs.length ∧
    (runs.foldl (txProbeStep okO okP) (db, r)).2.failed_transactions =
      r.failed_transactions ∧
    (runs.foldl (txProbeStep okO okP) (db, r)).2.rollback_tests = r.rollback_tests := by
  induction runs generalizing db r with
  | nil => simp
  | cons run rest ih =>
    rw [allRunsSucceed] at h
    cases hp : processOrderTransaction okO okP db run.1 run.2.1 with
    | mk db2 b =>
      cases b with
      | false => rw [hp] at h; exact absurd h (by simp)
      | true =>
        rw [hp] at h
        rw [List.foldl_cons, txProbeStep_success okO okP db db2 r run hp]
        obtain ⟨h1, h2, h3⟩ := ih db2 _ h
        exact ⟨by rw [h1]; simp; omega, h2, h3⟩

theorem reserveItem_none_insufficient (inv : List InventoryDoc) (it : OrderItem)
    (d : InventoryDoc)
    (hfind : inv.find? (fun x => x.product_id == it.product_id) = some d)
    (hstock : d.stock_quantity - d.reserved_quantity < it.quantity) :
    reserveItem inv it = none := by
  unfold reserveItem
  rw [hfind]
  dsimp only
  rw [if_pos hstock]

theorem process_rollback_fails (okO : OrderDoc → Bool) (okP : PaymentDoc → Bool)
    (db : EcommerceDB) (d : InventoryDoc)
    (hfind : db.inventory.find? (fun x => x.product_id == "PROD_000001") = some d)
    (hstock : d.stock_quantity - d.reserved_quantity < 99999) :
    processOrderTransaction okO okP db rollback_order rollback_payment = (db, false) := by
  have hres : reserveItems db.inventory rollback_order.items = none := by
    have hitems : rollback_order.items =
        [{ product_id := "PROD_000001", quantity := 99999, unit_price := 2599 / 100 }] := rfl
    rw [hitems]
    unfold reserveItems
    rw [reserveItem_none_insufficient db.inventory _ d hfind hstock]
  unfold processOrderTransaction
  rw [hres]

/-- C1: in the transaction probe, when the three valid runs commit and
the oversized ORD_ROLLBACK run fails at the stock check, the tallies
end at successful_transactions = 3 and rollback_tests = 1, and a
direct lookup by the failed run's keys ORD_ROLLBACK / PAY_ROLLBACK
finds zero documents in the orders and payments collections (the
inventory and the rest of the state are exactly the pre-transaction
state). -/
theorem transaction_probe_tallies (okO : OrderDoc → Bool) (okP : PaymentDoc → Bool)
    (db0 dbMid : EcommerceDB) (rMid : TransactionResults)
    (validRuns : List (OrderDoc × PaymentDoc × ℚ)) (tRb : ℚ) (d : InventoryDoc)
    (hlen : validRuns.length = 3)
    (hsucc : allRunsSucceed okO okP db0 validRuns = true)
    (hmid : validRuns.foldl (txProbeStep okO okP) (db0, ⟨0, 0, 0, []⟩) = (dbMid, rMid))
    (hfind : dbMid.inventory.find? (fun x => x.product_id == "PROD_000001") = some d)
    (hstock : d.stock_quantity - d.reserved_quantity < 99999)
    (hord : countOrders dbMid "ORD_ROLLBACK" = 0)
    (hpay : countPayments dbMid "PAY_ROLLBACK" = 0) :
    (test_multi_document_transactions okO okP db0 validRuns tRb).2.successful_transactions = 3 ∧
    (test_multi_document_transactions okO okP db0 validRuns tRb).2.rollback_tests = 1 ∧
    (test_multi_document_transactions okO okP db0 validRuns tRb).2.failed_transactions = 1 ∧
    (test_multi_document_transactions okO okP db0 validRuns tRb).1 = dbMid ∧
    countOrders (test_multi_document_transactions okO okP db0 validRuns tRb).1
      "ORD_ROLLBACK" = 0 ∧
    countPayments (test_multi_document_transactions okO okP db0 validRuns tRb).1
      "PAY_ROLLBACK" = 0 := by
  obtain ⟨h1, h2, h3⟩ := foldl_txProbeStep_all_succeed okO okP validRuns db0 ⟨0, 0, 0, []⟩ hsucc
  rw [hmid] at h1 h2 h3
  simp only at h1 h2 h3
  have hfail := process_rollback_fails okO okP dbMid d hfind hstock
  have hstep := txProbeStep_failure okO okP dbMid dbMid rMid
    (rollback_order, rollback_payment, tRb) hfail
  unfold test_multi_document_transactions
  rw [hmid, hstep]
  refine ⟨by simpa [hlen] using h1, by simp [h3], by simp [h2], rfl, hord, hpay⟩

theorem transaction_probe_tallies_witness :
    (test_multi_document_transactions (fun _ => true) (fun _ => true)
      ⟨[], [], [⟨"PROD_000001", 100, 0⟩]⟩
      [(⟨"ORD_T0000001", "CUST_000001", [⟨"PROD_000001", 1, 26⟩], 26, "pending"⟩,
        ⟨"PAY_T0000001", "ORD_T0000001", 26, "credit_card", "pending"⟩, 1),
       (⟨"ORD_T0000002", "CUST_000001", [⟨"PROD_000001", 1, 26⟩], 26, "pending"⟩,
        ⟨"PAY_T0000002", "ORD_T0000002", 26, "credit_card", "pending"⟩, 1),
       (⟨"ORD_T0000003", "CUST_000001", [⟨"PROD_000001", 1, 26⟩], 26, "pending"⟩,
        ⟨"PAY_T0000003", "ORD_T0000003", 26, "credit_card", "pending"⟩, 1)]
      1).2.successful_transactions = 3 ∧
    (test_multi_document_transactions (fun _ => true) (fun _ => true)
      ⟨[], [], [⟨"PROD_000001", 100, 0⟩]⟩
      [(⟨"ORD_T0000001", "CUST_000001", [⟨"PROD_000001", 1, 26⟩], 26, "pending"⟩,
        ⟨"PAY_T0000001", "ORD_T0000001", 26, "credit_card", "pending"⟩, 1),
       (⟨"ORD_T0000002", "CUST_000001", [⟨"PROD_000001", 1, 26⟩], 26, "pending"⟩,
        ⟨"PAY_T0000002", "ORD_T0000002", 26, "credit_card", "pending"⟩, 1),
       (⟨"ORD_T0000003", "CUST_000001", [⟨"PROD_000001", 1, 26⟩], 26, "pending"⟩,
        ⟨"PAY_T0000003", "ORD_T0000003", 26, "credit_card", "pending"⟩, 1)]
      1).2.rollback_tests = 1 ∧
    countOrders (test_multi_document_transactions (fun _ => true) (fun _ => true)
      ⟨[], [], [⟨"PROD_000001", 100, 0⟩]⟩
      [(⟨"ORD_T0000001", "CUST_000001", [⟨"PROD_000001", 1, 26⟩], 26, "pending"⟩,
        ⟨"PAY_T0000001", "ORD_T0000001", 26, "credit_card", "pending"⟩, 1),
       (⟨"ORD_T0000002", "CUST_000001", [⟨"PROD_000001", 1, 26⟩], 26, "pending"⟩,
        ⟨"PAY_T0000002", "ORD_T0000002", 26, "credit_card", "pending"⟩, 1),
       (⟨"ORD_T0000003", "CUST_000001", [⟨"PROD_000001", 1, 26⟩], 26, "pending"⟩,
        ⟨"PAY_T0000003", "ORD_T0000003", 26, "credit_card", "pending"⟩, 1)]
      1).1 "ORD_ROLLBACK" = 0 := by
  have h := transaction_probe_tallies (fun _ => true) (fun _ => true)
    ⟨[], [], [⟨"PROD_000001", 100, 0⟩]⟩
    ([(⟨"ORD_T0000001", "CUST_000001", [⟨"PROD_000001", 1, 26⟩], 26, "pending"⟩,
        ⟨"PAY_T0000001", "ORD_T0000001", 26, "credit_card", "pending"⟩, 1),
      (⟨"ORD_T0000002", "CUST_000001", [⟨"PROD_000001", 1, 26⟩], 26, "pending"⟩,
        ⟨"PAY_T0000002", "ORD_T0000002", 26, "credit_card", "pending"⟩, 1),
      (⟨"ORD_T0000003", "CUST_000001", [⟨"PROD_000001", 1, 26⟩], 26, "pending"⟩,
        ⟨"PAY_T0000003", "ORD_T0000003", 26, "credit_card", "pending"⟩, 1)].foldl
      (txProbeStep (fun _ => true) (fun _ => true))
      (⟨[], [], [⟨"PROD_000001", 100, 0⟩]⟩, ⟨0, 0, 0, []⟩)).1
    ([(⟨"ORD_T0000001", "CUST_000001", [⟨"PROD_000001", 1, 26⟩], 26, "pending"⟩,
        ⟨"PAY_T0000001", "ORD_T0000001", 26, "credit_card", "pending"⟩, 1),
      (⟨"ORD_T0000002", "CUST_000001", [⟨"PROD_000001", 1, 26⟩], 26, "pending"⟩,
        ⟨"PAY_T0000002", "ORD_T0000002", 26, "credit_card", "pending"⟩, 1),
      (⟨"ORD_T0000003", "CUST_000001", [⟨"PROD_000001", 1, 26⟩], 26, "pending"⟩,
        ⟨"PAY_T0000003", "ORD_T0000003", 26, "credit_card", "pending"⟩, 1)].foldl
      (txProbeStep (fun _ => true) (fun _ => true))
      (⟨[], [], [⟨"PROD_000001", 100, 0⟩]⟩, ⟨0, 0, 0, []⟩)).2
    [(⟨"ORD_T0000001", "CUST_000001", [⟨"PROD_000001", 1, 26⟩], 26, "pending"⟩,
        ⟨"PAY_T0000001", "ORD_T0000001", 26, "credit_card", "pending"⟩, 1),
      (⟨"ORD_T0000002", "CUST_000001", [⟨"PROD_000001", 1, 26⟩], 26, "pending"⟩,
        ⟨"PAY_T0000002", "ORD_T0000002", 26, "credit_card", "pending"⟩, 1),
      (⟨"ORD_T0000003", "CUST_000001", [⟨"PROD_000001", 1, 26⟩], 26, "pending"⟩,
        ⟨"PAY_T0000003", "ORD_T0000003", 26, "credit_card", "pending"⟩, 1)]
    1 ⟨"PROD_000001", 100, 3⟩ (by decide) (by decide) rfl (by decide) (by decide)
    (by decide) (by decide)
  exact ⟨h.1, h.2.1, h.2.2.2.2.1⟩

theorem foldl_txProbeStep_failed_eq_rollback (okO : OrderDoc → Bool)
    (okP : PaymentDoc → Bool) (runs : List (OrderDoc × PaymentDoc × ℚ))
    (db : EcommerceDB) (r : TransactionResults)
    (h : r.failed_transactions = r.rollback_tests) :
    (runs.foldl (txProbeStep okO okP) (db, r)).2.failed_transactions =
      (runs.foldl (txProbeStep okO okP) (db, r)).2.rollback_tests := by
  induction runs generalizing db r with
  | nil => exact h
  | cons run rest ih =>
    rw [List.foldl_cons]
    cases hp : processOrderTransaction okO okP db run.1 run.2.1 with
    | mk db2 b =>
      cases b with
      | true =>
        rw [txProbeStep_success okO okP db db2 r run hp]
        exact ih db2 _ h
      | false =>
        rw [txProbeStep_failure okO okP db db2 r run hp]
        exact ih db2 _ (by simp [h])

/-- C9: every failed transaction increments failed_transactions and
rollback_tests together by exactly 1 while a successful transaction
changes neither, so starting from zero tallies the probe satisfies
failed_transactions = rollback_tests after every prefix of its runs. -/
theorem transaction_counters_invariant (okO : OrderDoc → Bool) (okP : PaymentDoc → Bool)
    (db : EcommerceDB) (r : TransactionResults) (run : OrderDoc × PaymentDoc × ℚ)
    (runs : List (OrderDoc × PaymentDoc × ℚ)) (db0 : EcommerceDB) (n : ℕ) :
    ((processOrderTransaction okO okP db run.1 run.2.1).2 = true →
      (txProbeStep okO okP (db, r) run).2.failed_transactions = r.failed_transactions ∧
      (txProbeStep okO okP (db, r) run).2.rollback_tests = r.rollback_tests ∧
      (txProbeStep okO okP (db, r) run).2.successful_transactions =
        r.successful_transactions + 1) ∧
    ((processOrderTransaction okO okP db run.1 run.2.1).2 = false →
      (txProbeStep okO okP (db, r) run).2.failed_transactions =
        r.failed_transactions + 1 ∧
      (txProbeStep okO okP (db, r) run).2.rollback_tests = r.rollback_tests + 1 ∧
      (txProbeStep okO okP (db, r) run).2.successful_transactions =
        r.successful_transactions) ∧
    ((runs.take n).foldl (txProbeStep okO okP) (db0, ⟨0, 0, 0, []⟩)).2.failed_transactions =
      ((runs.take n).foldl (txProbeStep okO okP) (db0, ⟨0, 0, 0, []⟩)).2.rollback_tests := by
  refine ⟨?_, ?_, foldl_txProbeStep_failed_eq_rollback okO okP (runs.take n) db0 _ rfl⟩
  · intro hb
    cases hp : processOrderTransaction okO okP db run.1 run.2.1 with
    | mk db2 b =>
      rw [hp] at hb
      cases hb
      rw [txProbeStep_success okO okP db db2 r run hp]
      exact ⟨rfl, rfl, rfl⟩
  · intro hb
    cases hp : processOrderTransaction okO okP db run.1 run.2.1 with
    | mk db2 b =>
      rw [hp] at hb
      cases hb
      rw [txProbeStep_failure okO okP db db2 r run hp]
      exact ⟨rfl, rfl, rfl⟩

theorem transaction_counters_invariant_witness :
    (processOrderTransaction (fun _ => true) (fun _ => true)
        ⟨[], [], []⟩ rollback_order rollback_payment).2 = false ∧
    (txProbeStep (fun _ => true) (fun _ => true) (⟨[], [], []⟩, ⟨2, 0, 0, []⟩)
        (rollback_order, rollback_payment, 1)).2.failed_transactions = 0 + 1 ∧
    (txProbeStep (fun _ => true) (fun _ => true) (⟨[], [], []⟩, ⟨2, 0, 0, []⟩)
        (rollback_order, rollback_payment, 1)).2.rollback_tests = 0 + 1 ∧
    (txProbeStep (fun _ => true) (fun _ => true) (⟨[], [], []⟩, ⟨2, 0, 0, []⟩)
        (rollback_order, rollback_payment, 1)).2.successful_transactions = 2 :=
  ⟨by decide,
    (transaction_counters_invariant (fun _ => true) (fun _ => true)
      ⟨[], [], []⟩ ⟨2, 0, 0, []⟩ (rollback_order, rollback_payment, 1) [] ⟨[], [], []⟩
      0).2.1 (by decide)⟩

/-! ## Provisioning and the driver

Embedding of setup_validation_schemas (src/mongo_test.py lines
417-533), run_objective_3_data_integrity (lines 1212-1240),
run_complete_evaluation (lines 1776-1877) and the __main__ entry
(lines 1880-1882).  The four collection drops and the four validated
create_collection calls sit inside a single try; the first raising
step jumps to the except handler which returns False, so neither a
drop failure nor a create failure escapes as an exception.  A False
from provisioning makes the data-integrity phase return None, after
which the driver still runs the summary, visualization and export
steps and returns normally, so the process finishes with status 0. -/

/-- Provisioning: run the drop steps then the create steps in one try;
True iff no step raised. -/
def setup_validation_schemas (dropSteps createSteps : List (Except String Unit)) : Bool :=
  (dropSteps ++ createSteps).all exceptOk

/-- The data-integrity phase orchestrator: None when provisioning or
sample-data creation reported failure, otherwise the phase results. -/
def run_objective_3_data_integrity (setupOk : Bool) (sampleOk : Bool)
    (results : γ) : Option γ :=
  if setupOk then (if sampleOk then some results else none) else none

/-- What one driver invocation produces. -/
structure RunOutcome (α β γ : Type) where
  schema_results : α
  performance_results : β
  integrity_results : Option γ
  later_steps : List String
  exit_status : ℕ

/-- The driver: the three phases in order, then the summary,
visualization and export steps unconditionally, then a normal
return. -/
def run_complete_evaluation (schemaResults : α) (perfResults : β)
    (dropSteps createSteps : List (Except String Unit)) (sampleOk : Bool)
    (integrityResults : γ) : RunOutcome α β γ :=
  { schema_results := schemaResults
    performance_results := perfResults
    integrity_results := run_objective_3_data_integrity
      (setup_validation_schemas dropSteps createSteps) sampleOk integrityResults
    later_steps := ["generate summary", "create_visualizations", "export_for_sql_comparison"]
    exit_status := 0 }

/-- C8 counterexample: when the create step of provisioning fails, the
run does not stop: the integrity phase yields None, the later steps of
the run still execute, and the process completes with status 0 rather
than a non-zero status. -/
theorem create_failure_does_not_stop_run :
    (run_complete_evaluation () () [Except.ok ()] [Except.error "create failed"]
      true ()).integrity_results = none ∧
    (run_complete_evaluation () () [Except.ok ()] [Except.error "create failed"]
      true ()).exit_status = 0 ∧
    "export_for_sql_comparison" ∈ (run_complete_evaluation () () [Except.ok ()]
      [Except.error "create failed"] true ()).later_steps := by
  refine ⟨rfl, rfl, ?_⟩
  simp [run_complete_evaluation]

/-- C8 amended: provisioning failures never escape as exceptions: the
routine reports False exactly when some drop or create step raised; a
create-step (or drop-step) failure makes the data-integrity phase
return None, while the driver still executes the remaining steps of
the run and completes with status 0 instead of stopping with a
non-zero status. -/
theorem provisioning_failure_spec (dropSteps createSteps : List (Except String Unit))
    (sampleOk : Bool) (sr : α) (pr : β) (ir : γ) :
    (setup_validation_schemas dropSteps createSteps = false ↔
      ∃ s ∈ dropSteps ++ createSteps, exceptOk s = false) ∧
    ((∃ s ∈ createSteps, exceptOk s = false) →
      (run_complete_evaluation sr pr dropSteps createSteps sampleOk
        ir).integrity_results = none ∧
      (run_complete_evaluation sr pr dropSteps createSteps sampleOk ir).exit_status = 0 ∧
      (run_complete_evaluation sr pr dropSteps createSteps sampleOk ir).later_steps =
        ["generate summary", "create_visualizations", "export_for_sql_comparison"]) ∧
    ((∃ s ∈ dropSteps, exceptOk s = false) →
      (run_complete_evaluation sr pr dropSteps createSteps sampleOk
        ir).integrity_results = none ∧
      (run_complete_evaluation sr pr dropSteps createSteps sampleOk ir).exit_status = 0) := by
  refine ⟨?_, ?_, ?_⟩
  · constructor
    · intro hf
      rcases List.all_eq_false.mp hf with ⟨s, hs, hns⟩
      exact ⟨s, hs, by revert hns; cases exceptOk s <;> simp⟩
    · intro ⟨s, hs, hns⟩
      apply List.all_eq_false.mpr
      exact ⟨s, hs, by rw [hns]; exact Bool.false_ne_true⟩
  · intro ⟨s, hs, hns⟩
    have hsetup : setup_validation_schemas dropSteps createSteps = false := by
      apply List.all_eq_false.mpr
      exact ⟨s, List.mem_append_right dropSteps hs, by rw [hns]; exact Bool.false_ne_true⟩
    refine ⟨?_, rfl, rfl⟩
    show run_objective_3_data_integrity
      (setup_validation_schemas dropSteps createSteps) sampleOk ir = none
    rw [hsetup, run_objective_3_data_integrity, if_neg (by simp)]
  · intro ⟨s, hs, hns⟩
    have hsetup : setup_validation_schemas dropSteps createSteps = false := by
      apply List.all_eq_false.mpr
      exact ⟨s, List.mem_append_left createSteps hs, by rw [hns]; exact Bool.false_ne_true⟩
    refine ⟨?_, rfl⟩
    show run_objective_3_data_integrity
      (setup_validation_schemas dropSteps createSteps) sampleOk ir = none
    rw [hsetup, run_objective_3_data_integrity, if_neg (by simp)]

theorem provisioning_failure_spec_witness :
    (∃ s ∈ [(Except.error "create failed" : Except String Unit)], exceptOk s = false) ∧
    ((run_complete_evaluation () () [Except.ok ()] [Except.error "create failed"]
        true ()).integrity_results = none ∧
      (run_complete_evaluation () () [Except.ok ()] [Except.error "create failed"]
        true ()).exit_status = 0 ∧
      (run_complete_evaluation () () [Except.ok ()] [Except.error "create failed"]
        true ()).later_steps =
        ["generate summary", "create_visualizations", "export_for_sql_comparison"]) :=
  ⟨⟨Except.error "create failed", by simp, rfl⟩,
    (provisioning_failure_spec [Except.ok ()]
      [(Except.error "create failed" : Except String Unit)] true
      () () ()).2.1 ⟨Except.error "create failed", by simp, rfl⟩⟩

/-! ## Metrics map and phase write sets

Embedding of the per-run self.metrics dictionary.  The schema phase
writes basic_insertion, evolution_insertion, complex_insertion,
query_times and avg_query_time (src/mongo_test.py lines 86, 143, 202,
236, 237; src/PostgreSQL.py lines 153, 261, 262, 434, 498, 499, with
schema_migration_required in addition), the CRUD phase writes
crud_performance (src/mongo_test.py line 383, src/PostgreSQL.py line
699), and the data-integrity phase writes its own keys
(src/mongo_test.py lines 580, 581, 715, 897, 910, 1080, 1204, 1205;
src/PostgreSQL.py lines 945, 946, 1136, 1337, 1350, 1515, 1675,
1676). -/

/-- One dictionary assignment self.metrics[key] = value. -/
def setMetric (m : String → Option α) (k : String) (v : α) : String → Option α :=
  fun q => if q = k then some v else m q

/-- A phase's sequence of assignments applied in order. -/
def writeMetrics (m : String → Option α) (ws : List (String × α)) : String → Option α :=
  ws.foldl (fun acc kv => setMetric acc kv.1 kv.2) m

/-- Keys and values the MongoDB schema-flexibility phase stores. -/
def mongo_schema_phase_writes (v1 v2 v3 v4 v5 : α) : List (String × α) :=
  [("basic_insertion", v1), ("evolution_insertion", v2), ("complex_insertion", v3),
   ("query_times", v4), ("avg_query_time", v5)]

/-- Keys and values the MongoDB CRUD-performance phase stores. -/
def mongo_crud_phase_writes (v : α) : List (String × α) :=
  [("crud_performance", v)]

/-- Keys and values the MongoDB data-integrity phase stores. -/
def mongo_integrity_phase_writes (v1 v2 v3 v4 v5 v6 v7 v8 : α) : List (String × α) :=
  [("sample_customers", v1), ("sample_inventory", v2), ("validation_results", v3),
   ("transaction_performance", v4), ("transaction_results", v5), ("integrity_results", v6),
   ("consistency_performance", v7), ("validation_overhead", v8)]

/-- Keys and values the PostgreSQL schema-flexibility phase stores. -/
def pg_schema_phase_writes (v1 v2 v2b v3 v4 v5 : α) : List (String × α) :=
  [("basic_insertion", v1), ("evolution_insertion", v2), ("schema_migration_required", v2b),
   ("complex_insertion", v3), ("query_times", v4), ("avg_query_time", v5)]

/-- Keys and values the PostgreSQL data-integrity phase stores. -/
def pg_integrity_phase_writes (v1 v2 v3 v4 v5 v6 v7 v8 : α) : List (String × α) :=
  [("sample_customers", v1), ("sample_inventory", v2), ("validation_results", v3),
   ("transaction_performance", v4), ("transaction_results", v5), ("integrity_results", v6),
   ("consistency_performance", v7), ("constraint_overhead", v8)]

/-- C10: the CRUD-performance and data-integrity phases write disjoint
top-level metrics keys from the schema-flexibility phase, so after
they run, the five schema-phase entries read back exactly as that
phase stored them, for both backends. -/
theorem phase_writes_preserve_schema_metrics (m0 : String → Option α)
    (a1 a2 a2b a3 a4 a5 b c1 c2 c3 c4 c5 c6 c7 c8 : α) :
    (∀ k ∈ ["basic_insertion", "evolution_insertion", "complex_insertion",
        "query_times", "avg_query_time"],
      writeMetrics (writeMetrics (writeMetrics m0 (mongo_schema_phase_writes a1 a2 a3 a4 a5))
          (mongo_crud_phase_writes b))
          (mongo_integrity_phase_writes c1 c2 c3 c4 c5 c6 c7 c8) k =
        writeMetrics m0 (mongo_schema_phase_writes a1 a2 a3 a4 a5) k) ∧
    (∀ k ∈ ["basic_insertion", "evolution_insertion", "complex_insertion",
        "query_times", "avg_query_time"],
      writeMetrics (writeMetrics (writeMetrics m0
            (pg_schema_phase_writes a1 a2 a2b a3 a4 a5))
          (mongo_crud_phase_writes b))
          (pg_integrity_phase_writes c1 c2 c3 c4 c5 c6 c7 c8) k =
        writeMetrics m0 (pg_schema_phase_writes a1 a2 a2b a3 a4 a5) k) := by
  constructor
  · intro k hk
    fin_cases hk <;>
      simp [writeMetrics, mongo_schema_phase_writes, mongo_crud_phase_writes,
        mongo_integrity_phase_writes, setMetric]
  · intro k hk
    fin_cases hk <;>
      simp [writeMetrics, pg_schema_phase_writes, mongo_crud_phase_writes,
        pg_integrity_phase_writes, setMetric]

theorem phase_writes_preserve_schema_metrics_witness :
    ("basic_insertion" ∈ ["basic_insertion", "evolution_insertion", "complex_insertion",
        "query_times", "avg_query_time"]) ∧
    writeMetrics (writeMetrics (writeMetrics (fun _ => (none : Option ℕ))
        (mongo_schema_phase_writes 1 2 3 4 5)) (mongo_crud_phase_writes 6))
        (mongo_integrity_phase_writes 7 8 9 10 11 12 13 14) "basic_insertion" =
      writeMetrics (fun _ => (none : Option ℕ))
        (mongo_schema_phase_writes 1 2 3 4 5) "basic_insertion" :=
  ⟨by simp,
    (phase_writes_preserve_schema_metrics (fun _ => (none : Option ℕ))
      1 2 0 3 4 5 6 7 8 9 10 11 12 13 14).1 "basic_insertion" (by simp)⟩
